import Mathlib

/-
  Shallow embedding of the myGlyfada municipal issue-tracking backend.

  Translated from the TypeScript sources:
    src/controllers/issue.controller.ts   (createIssue, getIssues, updateIssue)
    src/controllers/excel.controller.ts   (exportIssues, importIssues)
    src/controllers/photo.controller.ts   (uploadPhotos)
    src/controllers/category.controller.ts (deleteCategory)
    src/controllers/auth.controller.ts    (register)
    src/controllers/user.controller.ts    (deleteUser)
  together with the Prisma schema (enums, column defaults) from the
  migration SQL.  The relational store is modelled as explicit lists of
  records; "now" is passed as an explicit natural-number timestamp and
  generated ids and reference numbers are passed as explicit arguments.
-/

namespace MyGlyfada

/-- UserRole enum of the Prisma schema. -/
inductive Role
  | ADMIN
  | SUPERVISOR
  | OFFICE
  | USER
deriving DecidableEq, Repr

/-- IssueStatus enum of the Prisma schema. -/
inductive IssueStatus
  | PENDING
  | IN_PROGRESS
  | COMPLETED
  | REJECTED
  | CANCELLED
deriving DecidableEq, Repr

/-- IssuePriority enum of the Prisma schema. -/
inductive IssuePriority
  | LOW
  | MEDIUM
  | HIGH
  | EMERGENCY
deriving DecidableEq, Repr

/-- An issues-table row.  Timestamps are naturals; geo-coordinates are
modelled as optional integers (their numeric values never matter to any
handler branch). -/
structure Issue where
  id : String
  title : String
  description : String
  address : String
  latitude : Option Int
  longitude : Option Int
  status : IssueStatus
  priority : IssuePriority
  isEmergency : Bool
  referenceNumber : String
  completedAt : Option Nat
  createdAt : Nat
  categoryId : String
  subcategoryId : Option String
  createdById : String
  assignedToId : Option String
deriving DecidableEq, Repr

/-- A categories-table row (the fields the modelled handlers touch). -/
structure Category where
  id : String
  name : String
  isActive : Bool
deriving DecidableEq, Repr

/-- A subcategories-table row (the fields the modelled handlers touch). -/
structure Subcategory where
  id : String
  categoryId : String
  isActive : Bool
deriving DecidableEq, Repr

/-- A users-table row (the fields the modelled handlers touch). -/
structure User where
  id : String
  email : String
  username : String
  password : String
  firstName : String
  lastName : String
  phone : Option String
  role : Role
  isActive : Bool
deriving DecidableEq, Repr

/-- A photos-table row. -/
structure Photo where
  id : String
  filename : String
  originalName : String
  mimeType : String
  size : Nat
  path : String
  issueId : String
  uploadedById : String
deriving DecidableEq, Repr

/-- An error JSON envelope: HTTP status code plus message. -/
structure ErrResp where
  status : Nat
  message : String
deriving DecidableEq, Repr

/-- A plain JSON envelope outcome: HTTP status code plus message. -/
structure ApiOutcome where
  status : Nat
  message : String
deriving DecidableEq, Repr

/-- JavaScript truthiness of an optional query-string value: absent and
the empty string are falsy. -/
def jsTruthy : Option String → Bool
  | none => false
  | some s => s ≠ ""

/-! ### auth.controller.ts: register -/

/-- The raw request body of POST /api/auth/register.  The handler
destructures only email, username, password, firstName, lastName and
phone; a role field the caller may also have sent is carried here to show
that it is ignored. -/
structure RegisterBody where
  email : String
  username : String
  password : String
  firstName : String
  lastName : String
  phone : Option String
  role : Option Role
deriving DecidableEq, Repr

/-- register from auth.controller.ts.  Looks for an existing user with
the same email or username; otherwise creates the user with the literal
role USER.  isActive is not supplied, so the schema default true applies
(migration: isActive BOOLEAN NOT NULL DEFAULT true). -/
def register (users : List User) (body : RegisterBody)
    (newId hashed : String) : Except ErrResp User :=
  match users.find? (fun u => u.email == body.email || u.username == body.username) with
  | some existing =>
      .error ⟨400, if existing.email = body.email
                   then "Email already registered" else "Username already taken"⟩
  | none =>
      .ok ⟨newId, body.email, body.username, hashed, body.firstName,
           body.lastName, body.phone, .USER, true⟩

/-! ### user.controller.ts: deleteUser -/

/-- deleteUser from user.controller.ts.  Admin only; the self-delete
check precedes the user lookup; a target owning issues is deactivated
instead of removed. -/
def deleteUser (targetId selfId : String) (role : Role)
    (users : List User) (issues : List Issue) : ApiOutcome × List User :=
  if role ≠ .ADMIN then
    (⟨403, "Access denied. Admin only feature."⟩, users)
  else if targetId = selfId then
    (⟨400, "Cannot delete your own account"⟩, users)
  else
    match users.find? (fun u => u.id == targetId) with
    | none => (⟨404, "User not found"⟩, users)
    | some _ =>
      if 0 < (issues.filter (fun i => i.createdById == targetId)).length then
        (⟨200, "User account deactivated successfully (user has created issues)"⟩,
         users.map (fun u => if u.id = targetId then { u with isActive := false } else u))
      else
        (⟨200, "User deleted successfully"⟩,
         users.filter (fun u => ¬ u.id = targetId))

/-! ### category.controller.ts: deleteCategory -/

/-- The category/subcategory tables. -/
structure CatState where
  categories : List Category
  subcategories : List Subcategory
deriving DecidableEq, Repr

/-- deleteCategory from category.controller.ts.  Requires an active
category; refuses with 400 when any issue references it; otherwise soft
deletes the category and all its subcategories by clearing isActive. -/
def deleteCategory (id : String) (st : CatState) (issues : List Issue) :
    ApiOutcome × CatState :=
  match st.categories.find? (fun c => c.id == id && c.isActive) with
  | none => (⟨404, "Category not found"⟩, st)
  | some _ =>
    if 0 < (issues.filter (fun i => i.categoryId == id)).length then
      (⟨400, "Cannot delete category with existing issues"⟩, st)
    else
      (⟨200, "Category deleted successfully"⟩,
       ⟨st.categories.map (fun c => if c.id = id then { c with isActive := false } else c),
        st.subcategories.map (fun s => if s.categoryId = id then { s with isActive := false } else s)⟩)

/-! ### issue.controller.ts: createIssue -/

/-- The request body of POST /api/issues.  priority defaults to MEDIUM
and isEmergency to false when absent. -/
structure CreateIssueRequest where
  title : String
  description : String
  address : String
  latitude : Option Int
  longitude : Option Int
  categoryId : String
  subcategoryId : Option String
  priority : Option IssuePriority
  isEmergency : Option Bool
deriving DecidableEq, Repr

/-- The category lookup of createIssue: findUnique where id and isActive. -/
def findActiveCategory (cats : List Category) (cid : String) : Option Category :=
  cats.find? (fun c => c.id == cid && c.isActive)

/-- createIssue from issue.controller.ts.  Verifies the category and (if
provided) subcategory, then creates the issue with status PENDING (schema
default), priority forced to EMERGENCY when isEmergency is true, and no
completedAt. -/
def createIssue (uid newId : String) (req : CreateIssueRequest)
    (cats : List Category) (subs : List Subcategory)
    (refNumber : String) (now : Nat) : Except ErrResp Issue :=
  let priority := req.priority.getD .MEDIUM
  let isEmergency := req.isEmergency.getD false
  let newIssue : Issue :=
    ⟨newId, req.title, req.description, req.address, req.latitude, req.longitude,
     .PENDING, if isEmergency then .EMERGENCY else priority, isEmergency,
     refNumber, none, now, req.categoryId, req.subcategoryId, uid, none⟩
  match findActiveCategory cats req.categoryId with
  | none => .error ⟨400, "Invalid category"⟩
  | some _ =>
    match req.subcategoryId with
    | some sid =>
      match subs.find? (fun s => s.id == sid && s.categoryId == req.categoryId && s.isActive) with
      | none => .error ⟨400, "Invalid subcategory"⟩
      | some _ => .ok newIssue
    | none => .ok newIssue

/-! ### issue.controller.ts: updateIssue -/

/-- The request body of PUT /api/issues/:id.  A field is present in the
JSON body exactly when the option is some. -/
structure UpdateIssueRequest where
  title : Option String
  description : Option String
  address : Option String
  latitude : Option Int
  longitude : Option Int
  categoryId : Option String
  subcategoryId : Option String
  status : Option IssueStatus
  priority : Option IssuePriority
  isEmergency : Option Bool
  assignedToId : Option String
deriving DecidableEq, Repr

/-- The allowedFields list for a USER updating their own issue. -/
def userAllowedFields : List String :=
  ["title", "description", "address", "latitude", "longitude"]

/-- The allowedFields list for staff roles. -/
def staffAllowedFields : List String :=
  ["title", "description", "address", "latitude", "longitude",
   "status", "priority", "assignedToId", "categoryId", "subcategoryId", "isEmergency"]

/-- The permission computation of updateIssue: whether the caller may
update at all, and which payload keys are honored. -/
def updatePerms (uid : String) (role : Role) (cur : Issue) : Bool × List String :=
  if role = .USER ∧ cur.createdById = uid then (true, userAllowedFields)
  else if role = .SUPERVISOR ∨ role = .OFFICE ∨ role = .ADMIN then (true, staffAllowedFields)
  else (false, [])

/-- One key of the allowed-fields filtering loop: a payload value is kept
only when its key is in the allowed list. -/
def keepField {α : Type} (allowed : List String) (key : String) (v : Option α) : Option α :=
  if key ∈ allowed then v else none

/-- The filteredUpdateData object of updateIssue: the payload restricted
to the allowed keys. -/
def filterUpdateData (allowed : List String) (u : UpdateIssueRequest) : UpdateIssueRequest where
  title := keepField allowed "title" u.title
  description := keepField allowed "description" u.description
  address := keepField allowed "address" u.address
  latitude := keepField allowed "latitude" u.latitude
  longitude := keepField allowed "longitude" u.longitude
  categoryId := keepField allowed "categoryId" u.categoryId
  subcategoryId := keepField allowed "subcategoryId" u.subcategoryId
  status := keepField allowed "status" u.status
  priority := keepField allowed "priority" u.priority
  isEmergency := keepField allowed "isEmergency" u.isEmergency
  assignedToId := keepField allowed "assignedToId" u.assignedToId

/-- The prisma update merge: every present field of the filtered payload
replaces the stored value; completedAt is the separately computed value. -/
def applyUpdate (cur : Issue) (f : UpdateIssueRequest) (completedAt : Option Nat) : Issue :=
  { cur with
    title := f.title.getD cur.title
    description := f.description.getD cur.description
    address := f.address.getD cur.address
    latitude := match f.latitude with | some v => some v | none => cur.latitude
    longitude := match f.longitude with | some v => some v | none => cur.longitude
    categoryId := f.categoryId.getD cur.categoryId
    subcategoryId := match f.subcategoryId with | some v => some v | none => cur.subcategoryId
    status := f.status.getD cur.status
    priority := f.priority.getD cur.priority
    isEmergency := f.isEmergency.getD cur.isEmergency
    assignedToId := match f.assignedToId with | some v => some v | none => cur.assignedToId
    completedAt := completedAt }

/-- updateIssue from issue.controller.ts, for an issue that was found.
Filters the payload by the allowed fields of the caller, stamps
completedAt when the honored status moves the issue into COMPLETED from a
different status, and otherwise leaves completedAt untouched. -/
def updateIssue (uid : String) (role : Role) (cur : Issue)
    (u : UpdateIssueRequest) (now : Nat) : Except ErrResp Issue :=
  if (updatePerms uid role cur).1 = false then .error ⟨403, "Access denied"⟩
  else
    .ok (applyUpdate cur (filterUpdateData (updatePerms uid role cur).2 u)
      (if (filterUpdateData (updatePerms uid role cur).2 u).status = some .COMPLETED
          ∧ cur.status ≠ .COMPLETED
       then some now else cur.completedAt))

/-! ### issue.controller.ts: getIssues -/

/-- The two shapes the handler assigns to the single OR key of the
prisma where object: the SUPERVISOR visibility scope, and the free-text
search scope.  Assigning one replaces the other, exactly as a JavaScript
property assignment does. -/
inductive OrClause
  | supervisorScope (uid : String)
  | searchScope (s : String)
deriving DecidableEq, Repr

/-- The query-string filters of GET /api/issues. -/
structure FilterOptions where
  status : Option (List IssueStatus) := none
  priority : Option (List IssuePriority) := none
  categoryId : Option String := none
  subcategoryId : Option String := none
  assignedToId : Option String := none
  createdById : Option String := none
  dateFrom : Option Nat := none
  dateTo : Option Nat := none
  isEmergency : Option String := none
  search : Option String := none
  page : Nat := 1
  limit : Nat := 20
deriving Repr

/-- The prisma where object built by getIssues: one field per possible
key. -/
structure IssueWhere where
  createdById : Option String := none
  orClause : Option OrClause := none
  status : Option (List IssueStatus) := none
  priority : Option (List IssuePriority) := none
  categoryId : Option String := none
  subcategoryId : Option String := none
  assignedToId : Option String := none
  dateFrom : Option Nat := none
  dateTo : Option Nat := none
  isEmergency : Option Bool := none
deriving Repr

/-- Whether the caller has one of the three staff roles. -/
def isStaff (role : Role) : Bool :=
  role = .ADMIN || role = .SUPERVISOR || role = .OFFICE

/-- The where-building sequence of getIssues, in source order: role
scoping first, then each caller filter.  The search branch assigns the
OR key, replacing a previously assigned SUPERVISOR scope. -/
def buildIssueWhere (uid : String) (role : Role) (f : FilterOptions) : IssueWhere :=
  let w : IssueWhere := {}
  let w := if role = .USER then { w with createdById := some uid }
           else if role = .SUPERVISOR then { w with orClause := some (.supervisorScope uid) }
           else w
  let w := match f.status with
           | some l => if l ≠ [] then { w with status := some l } else w
           | none => w
  let w := match f.priority with
           | some l => if l ≠ [] then { w with priority := some l } else w
           | none => w
  let w := if jsTruthy f.categoryId then { w with categoryId := f.categoryId } else w
  let w := if jsTruthy f.subcategoryId then { w with subcategoryId := f.subcategoryId } else w
  let w := if jsTruthy f.assignedToId && isStaff role then { w with assignedToId := f.assignedToId } else w
  let w := if jsTruthy f.createdById && isStaff role then { w with createdById := f.createdById } else w
  let w := match f.dateFrom with
           | some d => { w with dateFrom := some d }
           | none => w
  let w := match f.dateTo with
           | some d => { w with dateTo := some d }
           | none => w
  let w := match f.isEmergency with
           | some s => { w with isEmergency := some (s = "true") }
           | none => w
  let w := if jsTruthy f.search then { w with orClause := some (.searchScope (f.search.getD "")) } else w
  w

/-- Whether the first character list is an initial segment of the second. -/
def listStartsWith : List Char → List Char → Bool
  | [], _ => true
  | _ :: _, [] => false
  | p :: ps, h :: hs => p == h && listStartsWith ps hs

/-- Whether the first character list occurs contiguously in the second. -/
def listHasInfix (pat : List Char) : List Char → Bool
  | [] => pat.isEmpty
  | h :: hs => listStartsWith pat (h :: hs) || listHasInfix pat hs

/-- Case-insensitive substring containment, the prisma contains filter
with insensitive mode. -/
def strContainsCI (hay pat : String) : Bool :=
  listHasInfix (pat.toList.map Char.toLower) (hay.toList.map Char.toLower)

/-- Satisfaction of the OR key of the where object. -/
def matchesOrClause (oc : OrClause) (i : Issue) : Bool :=
  match oc with
  | .supervisorScope uid =>
      i.assignedToId == some uid || i.assignedToId == none || i.createdById == uid
  | .searchScope s =>
      strContainsCI i.title s || strContainsCI i.description s ||
      strContainsCI i.address s || strContainsCI i.referenceNumber s

/-- An absent where key constrains nothing; a present one must hold. -/
def optCheck {α : Type} (o : Option α) (p : α → Bool) : Bool :=
  match o with
  | none => true
  | some a => p a

/-- Satisfaction of the whole where object by an issue row. -/
def matchesIssueWhere (w : IssueWhere) (i : Issue) : Bool :=
  optCheck w.createdById (fun c => i.createdById == c) &&
  optCheck w.orClause (fun oc => matchesOrClause oc i) &&
  optCheck w.status (fun l => l.contains i.status) &&
  optCheck w.priority (fun l => l.contains i.priority) &&
  optCheck w.categoryId (fun c => i.categoryId == c) &&
  optCheck w.subcategoryId (fun c => i.subcategoryId == some c) &&
  optCheck w.assignedToId (fun a => i.assignedToId == some a) &&
  optCheck w.dateFrom (fun d => d ≤ i.createdAt) &&
  optCheck w.dateTo (fun d => i.createdAt ≤ d) &&
  optCheck w.isEmergency (fun b => i.isEmergency == b)

/-- The orderBy of getIssues: isEmergency descending, then createdAt
descending. -/
def issueSortBefore (a b : Issue) : Bool :=
  if a.isEmergency ≠ b.isEmergency then a.isEmergency else b.createdAt ≤ a.createdAt

/-- Insertion step of the stable sort used to model orderBy. -/
def insertIssueSorted (x : Issue) : List Issue → List Issue
  | [] => [x]
  | y :: ys => if issueSortBefore x y then x :: y :: ys else y :: insertIssueSorted x ys

/-- Stable sort modelling the orderBy of getIssues. -/
def sortIssues : List Issue → List Issue
  | [] => []
  | x :: xs => insertIssueSorted x (sortIssues xs)

/-- getIssues from issue.controller.ts: the page of issue rows returned
to an authenticated caller (pagination: skip (page-1)*limit, take
limit). -/
def getIssuesPage (uid : String) (role : Role) (f : FilterOptions)
    (db : List Issue) : List Issue :=
  let w := buildIssueWhere uid role f
  ((sortIssues (db.filter (matchesIssueWhere w))).drop ((f.page - 1) * f.limit)).take f.limit

/-! ### excel.controller.ts: exportIssues -/

/-- The query-string filters of GET /api/excel/export.  A provided
status or priority is already normalized to a list (the handler wraps a
scalar in a singleton array). -/
structure ExportFilters where
  status : Option (List IssueStatus) := none
  priority : Option (List IssuePriority) := none
  categoryId : Option String := none
  subcategoryId : Option String := none
  dateFrom : Option Nat := none
  dateTo : Option Nat := none
  isEmergency : Option String := none
deriving Repr

/-- The prisma where object built by exportIssues.  No role scoping key
and no OR key appear anywhere in this handler. -/
structure ExportWhere where
  status : Option (List IssueStatus) := none
  priority : Option (List IssuePriority) := none
  categoryId : Option String := none
  subcategoryId : Option String := none
  dateFrom : Option Nat := none
  dateTo : Option Nat := none
  isEmergency : Option Bool := none
deriving Repr

/-- The where-building sequence of exportIssues, in source order. -/
def buildExportWhere (f : ExportFilters) : ExportWhere :=
  let w : ExportWhere := {}
  let w := match f.status with
           | some l => { w with status := some l }
           | none => w
  let w := match f.priority with
           | some l => { w with priority := some l }
           | none => w
  let w := if jsTruthy f.categoryId then { w with categoryId := f.categoryId } else w
  let w := if jsTruthy f.subcategoryId then { w with subcategoryId := f.subcategoryId } else w
  let w := match f.dateFrom with
           | some d => { w with dateFrom := some d }
           | none => w
  let w := match f.dateTo with
           | some d => { w with dateTo := some d }
           | none => w
  let w := match f.isEmergency with
           | some s => { w with isEmergency := some (s = "true") }
           | none => w
  w

/-- Satisfaction of the export where object by an issue row. -/
def matchesExportWhere (w : ExportWhere) (i : Issue) : Bool :=
  optCheck w.status (fun l => l.contains i.status) &&
  optCheck w.priority (fun l => l.contains i.priority) &&
  optCheck w.categoryId (fun c => i.categoryId == c) &&
  optCheck w.subcategoryId (fun c => i.subcategoryId == some c) &&
  optCheck w.dateFrom (fun d => d ≤ i.createdAt) &&
  optCheck w.dateTo (fun d => i.createdAt ≤ d) &&
  optCheck w.isEmergency (fun b => i.isEmergency == b)

/-- Insertion step of the stable sort modelling orderBy createdAt desc. -/
def insertByCreatedDesc (x : Issue) : List Issue → List Issue
  | [] => [x]
  | y :: ys => if y.createdAt ≤ x.createdAt then x :: y :: ys else y :: insertByCreatedDesc x ys

/-- Stable sort modelling the orderBy createdAt desc of exportIssues. -/
def sortByCreatedDesc : List Issue → List Issue
  | [] => []
  | x :: xs => insertByCreatedDesc x (sortByCreatedDesc xs)

/-- exportIssues from excel.controller.ts: the issue rows written to the
produced workbook, one row per fetched issue.  The only access check is
the rejection of the USER role; the fetch applies the caller filters and
nothing else. -/
def exportIssues (uid : String) (role : Role) (f : ExportFilters)
    (db : List Issue) : Except ErrResp (List Issue) :=
  let _requester := uid
  if role = .USER then .error ⟨403, "Access denied. Staff only feature."⟩
  else .ok (sortByCreatedDesc (db.filter (matchesExportWhere (buildExportWhere f))))

/-! ### excel.controller.ts: importIssues -/

/-- One data row of the uploaded worksheet: the text of cells 1 to 4.
A blank cell reads as the empty string. -/
structure ImportRow where
  title : String
  description : String
  address : String
  categoryName : String
deriving DecidableEq, Repr

/-- The import report returned by importIssues. -/
structure ImportResult where
  successful : Nat
  failed : Nat
  errors : List String
deriving DecidableEq, Repr

/-- One iteration of the row loop of importIssues, at worksheet row n:
a blank required cell records a missing-fields error, an unresolvable
active category records a not-found error, and otherwise the issue is
created.  The source wraps the category name in single quotes inside the
not-found message; the quotes are omitted here (no claim concerns that
message), the rest of the text is verbatim. -/
def processRow (cats : List Category) (res : ImportResult) (n : Nat)
    (row : ImportRow) : ImportResult :=
  if row.title = "" ∨ row.description = "" ∨ row.address = "" ∨ row.categoryName = "" then
    { res with failed := res.failed + 1,
               errors := res.errors ++ ["Row " ++ toString n ++ ": Missing required fields"] }
  else
    match cats.find? (fun c => c.name == row.categoryName && c.isActive) with
    | none =>
      { res with failed := res.failed + 1,
                 errors := res.errors ++
                   ["Row " ++ toString n ++ ": Category " ++ row.categoryName ++ " not found"] }
    | some _ => { res with successful := res.successful + 1 }

/-- The row loop of importIssues, carrying the worksheet row number. -/
def processRowsFrom (cats : List Category) : Nat → ImportResult → List ImportRow → ImportResult
  | _, res, [] => res
  | n, res, row :: rest => processRowsFrom cats (n + 1) (processRow cats res n row) rest

/-- importIssues from excel.controller.ts: rows are processed starting
at worksheet row 2 (row 1 is the header), accumulating the report. -/
def excelImportIssues (cats : List Category) (rows : List ImportRow) : ImportResult :=
  processRowsFrom cats 2 ⟨0, 0, []⟩ rows

/-! ### photo.controller.ts: uploadPhotos -/

/-- The multer metadata of one uploaded file; by the time the handler
runs, the blob is already written at path. -/
structure FileMeta where
  filename : String
  originalName : String
  mimeType : String
  size : Nat
  path : String
deriving DecidableEq, Repr

/-- The photo table plus the blob store, as touched by uploadPhotos. -/
structure PhotoState where
  photos : List Photo
  disk : List String
deriving DecidableEq, Repr

/-- The photo count of an issue. -/
def photoCountFor (issueId : String) (st : PhotoState) : Nat :=
  (st.photos.filter (fun p => p.issueId == issueId)).length

/-- uploadPhotos from photo.controller.ts.  Looks up the issue, rejects
a USER uploading to a foreign issue, rejects an empty batch, and when
the existing count plus the batch size exceeds the configured maximum
unlinks the already-written batch files and responds 400 without
creating any Photo record; otherwise createMany inserts one record per
file. -/
def uploadPhotos (issueId uid : String) (role : Role) (db : List Issue)
    (files : List FileMeta) (maxPhotos : Nat) (st : PhotoState)
    (freshIds : List String) : ApiOutcome × PhotoState :=
  match db.find? (fun i => i.id == issueId) with
  | none => (⟨404, "Issue not found"⟩, st)
  | some issue =>
    if role = .USER ∧ issue.createdById ≠ uid then (⟨403, "Access denied"⟩, st)
    else if files = [] then (⟨400, "No files uploaded"⟩, st)
    else
      if maxPhotos < photoCountFor issueId st + files.length then
        (⟨400, "Maximum " ++ toString maxPhotos ++ " photos allowed per issue. Current: "
               ++ toString (photoCountFor issueId st)⟩,
         { st with disk := st.disk.filter (fun p => ¬ files.any (fun f => f.path == p)) })
      else
        (⟨201, toString files.length ++ " photo(s) uploaded successfully"⟩,
         { st with photos := st.photos ++ (files.zip freshIds).map (fun fp =>
             ⟨fp.2, fp.1.filename, fp.1.originalName, fp.1.mimeType, fp.1.size,
              fp.1.path, issueId, uid⟩) })

/-! ## Spec-side predicates -/

/-- The SUPERVISOR visibility rule exactly as the spec words it: the
issue is assigned to the requester, or unassigned, or created by the
requester. -/
def supervisorVisible (uid : String) (i : Issue) : Bool :=
  i.assignedToId == some uid || i.assignedToId == none || i.createdById == uid

/-! ## Helper lemmas -/

/-- updateIssue succeeds exactly with the merge of the filtered payload
whenever the permission bit is set. -/
theorem updateIssue_ok (uid : String) (role : Role) (cur : Issue)
    (u : UpdateIssueRequest) (now : Nat)
    (h : (updatePerms uid role cur).1 = true) :
    updateIssue uid role cur u now =
      Except.ok (applyUpdate cur (filterUpdateData (updatePerms uid role cur).2 u)
        (if (filterUpdateData (updatePerms uid role cur).2 u).status = some .COMPLETED
            ∧ cur.status ≠ .COMPLETED
         then some now else cur.completedAt)) := by
  unfold updateIssue
  rw [if_neg (by simp [h])]

/-- Membership through the insertion step of the export sort. -/
theorem mem_insertByCreatedDesc (x y : Issue) (l : List Issue) :
    y ∈ insertByCreatedDesc x l ↔ y = x ∨ y ∈ l := by
  induction l with
  | nil => simp [insertByCreatedDesc]
  | cons a as ih =>
    unfold insertByCreatedDesc
    by_cases h : a.createdAt ≤ x.createdAt
    · rw [if_pos h]; simp
    · rw [if_neg h]; simp [ih]; tauto

/-- The export sort neither adds nor drops rows. -/
theorem mem_sortByCreatedDesc (y : Issue) (l : List Issue) :
    y ∈ sortByCreatedDesc l ↔ y ∈ l := by
  induction l with
  | nil => simp [sortByCreatedDesc]
  | cons a as ih =>
    unfold sortByCreatedDesc
    rw [mem_insertByCreatedDesc, ih]
    simp

/-! ## Claims -/

/-- C10: an ADMIN whose own id equals the target id of deleteUser gets a
400 response and the user table is untouched: the self-delete guard runs
before the lookup and before either delete branch. -/
theorem c10_admin_cannot_self_delete (selfId : String) (users : List User)
    (issues : List Issue) :
    (deleteUser selfId selfId .ADMIN users issues).1.status = 400
    ∧ (deleteUser selfId selfId .ADMIN users issues).2 = users := by
  simp [deleteUser]

/-- C9: every successful registration stores role USER and isActive
true, whatever role value was present in the request body. -/
theorem c9_register_forces_user_role (users : List User) (body : RegisterBody)
    (newId hashed : String) (u : User)
    (hok : register users body newId hashed = Except.ok u) :
    u.role = .USER ∧ u.isActive = true := by
  unfold register at hok
  cases h : users.find? (fun v => v.email == body.email || v.username == body.username) with
  | some existing => rw [h] at hok; cases hok
  | none => rw [h] at hok; cases hok; exact ⟨rfl, rfl⟩

/-- The created user of the C9 witness registration. -/
def c9User : User :=
  ⟨"u1", "alice@example.gr", "alice", "hash", "Alice", "A", none, .USER, true⟩

/-- The C9 witness request body, carrying an attempted ADMIN role. -/
def c9Body : RegisterBody :=
  ⟨"alice@example.gr", "alice", "secret99", "Alice", "A", none, some .ADMIN⟩

/-- C9 witness: registering with an attempted ADMIN role on an empty
user table still yields role USER and isActive true. -/
theorem c9_register_forces_user_role_witness :
    c9User.role = .USER ∧ c9User.isActive = true :=
  c9_register_forces_user_role [] c9Body "u1" "hash" c9User rfl

/-- The C1 failing listing request: a SUPERVISOR with only the free-text
search parameter set. -/
def c1Filter : FilterOptions := { search := some "pothole" }

/-- The C1 issue: assigned to a different supervisor and created by a
different citizen, with the search term in its title. -/
def c1ForeignIssue : Issue :=
  ⟨"i1", "pothole on main st", "deep pothole near the crossing", "12 Main St",
   none, none, .PENDING, .MEDIUM, false, "GLY-001", none, 100, "cat1", none,
   "u9", some "sup2"⟩

/-- C1: the claim fails on the code.  getIssues stores the SUPERVISOR
visibility scope in the single OR key of the where object and the
free-text search branch assigns that same key, replacing the scope; so a
SUPERVISOR searching receives an issue that is assigned to another user
and was created by another user, violating the visibility rule. -/
theorem c1_search_overrides_supervisor_scope :
    getIssuesPage "sup1" .SUPERVISOR c1Filter [c1ForeignIssue] = [c1ForeignIssue]
    ∧ supervisorVisible "sup1" c1ForeignIssue = false := by
  constructor
  · decide
  · decide

/-- The stored issue of the C2 counterexample. -/
def c2Issue : Issue :=
  ⟨"i2", "tilted pole", "a lighting pole is tilted", "4 Side St", none, none,
   .PENDING, .MEDIUM, false, "GLY-002", none, 50, "cat1", none, "u1", none⟩

/-- The C2 counterexample payload: isEmergency true together with
priority LOW. -/
def c2Payload : UpdateIssueRequest :=
  ⟨none, none, none, none, none, none, none, none, some .LOW, some true, none⟩

/-- C2 counterexample: a staff update whose honored payload has
isEmergency true and priority LOW stores priority LOW, not EMERGENCY;
updateIssue contains no escalation step. -/
theorem c2_update_keeps_supplied_priority :
    (updateIssue "admin1" .ADMIN c2Issue c2Payload 60).toOption.map Issue.priority
      ≠ some IssuePriority.EMERGENCY := by
  decide

/-- C2 (amended): the escalation is applied only by createIssue: a
create with isEmergency true stores priority EMERGENCY regardless of the
supplied priority, while updateIssue stores the honored priority exactly
as supplied even when the same payload carries isEmergency true. -/
theorem c2_escalation_on_create_only
    (uid1 newId : String) (req : CreateIssueRequest) (cats : List Category)
    (subs : List Subcategory) (ref : String) (now1 : Nat) (i : Issue)
    (hreq : req.isEmergency = some true)
    (hok1 : createIssue uid1 newId req cats subs ref now1 = Except.ok i)
    (uid2 : String) (role : Role) (cur : Issue) (u : UpdateIssueRequest)
    (now2 : Nat) (p : IssuePriority) (r : Issue)
    (hrole : role = .SUPERVISOR ∨ role = .OFFICE ∨ role = .ADMIN)
    (_hpe : u.isEmergency = some true)
    (hpp : u.priority = some p)
    (hok2 : updateIssue uid2 role cur u now2 = Except.ok r) :
    i.priority = .EMERGENCY ∧ r.priority = p := by
  constructor
  · unfold createIssue at hok1
    rw [hreq] at hok1
    simp only [Option.getD_some, if_pos] at hok1
    split at hok1
    · cases hok1
    · split at hok1
      · split at hok1
        · cases hok1
        · cases hok1; rfl
      · cases hok1; rfl
  · have hperm : updatePerms uid2 role cur = (true, staffAllowedFields) := by
      rcases hrole with h | h | h <;> subst h <;> simp [updatePerms]
    unfold updateIssue at hok2
    rw [hperm, if_neg (by simp)] at hok2
    injection hok2 with h
    subst h
    simp [applyUpdate, filterUpdateData, keepField, staffAllowedFields, hpp]

/-- The created issue of the C2 witness. -/
def c2Created : Issue :=
  ⟨"i9", "flooding", "street flooding after rain", "8 River St", none, none,
   .PENDING, .EMERGENCY, true, "GLY-009", none, 5, "cat1", none, "u1", none⟩

/-- The C2 witness create request: supplied priority LOW, isEmergency
true. -/
def c2CreateReq : CreateIssueRequest :=
  ⟨"flooding", "street flooding after rain", "8 River St", none, none,
   "cat1", none, some .LOW, some true⟩

/-- The category table of the C2 witness. -/
def c2Cats : List Category := [⟨"cat1", "Lighting", true⟩]

/-- The updated issue of the C2 witness. -/
def c2Updated : Issue :=
  ⟨"i2", "tilted pole", "a lighting pole is tilted", "4 Side St", none, none,
   .PENDING, .LOW, true, "GLY-002", none, 50, "cat1", none, "u1", none⟩

/-- C2 witness: the amended statement at concrete inputs: the create
stores EMERGENCY although LOW was supplied, and the update stores the
supplied LOW although isEmergency is true. -/
theorem c2_escalation_on_create_only_witness :
    c2Created.priority = .EMERGENCY ∧ c2Updated.priority = .LOW :=
  c2_escalation_on_create_only "u1" "i9" c2CreateReq c2Cats [] "GLY-009" 5 c2Created
    rfl rfl "admin1" .ADMIN c2Issue c2Payload 60 .LOW c2Updated
    (Or.inr (Or.inr rfl)) rfl rfl rfl

/-- C4: the completedAt stamping rule of updateIssue: for every update
that the permission check lets through, the stored completedAt is the
current time exactly when the honored payload status is COMPLETED and
the previous status was not COMPLETED, and is the untouched previous
value otherwise; in particular moving away from COMPLETED never clears
it. -/
theorem c4_completedAt_stamping
    (uid : String) (role : Role) (cur : Issue) (u : UpdateIssueRequest)
    (now : Nat) (r : Issue)
    (hok : updateIssue uid role cur u now = Except.ok r) :
    r.completedAt =
      if (filterUpdateData (updatePerms uid role cur).2 u).status = some .COMPLETED
          ∧ cur.status ≠ .COMPLETED
      then some now else cur.completedAt := by
  unfold updateIssue at hok
  split at hok
  · cases hok
  · injection hok with h
    subst h
    rfl

/-- The stored issue of the C4 witness, in progress and without a
completion stamp. -/
def c4Issue : Issue :=
  ⟨"i4", "broken bench", "bench broken in the park", "Park Ave", none, none,
   .IN_PROGRESS, .MEDIUM, false, "GLY-004", none, 10, "cat1", none, "u1", none⟩

/-- The C4 witness payload: move the status to COMPLETED. -/
def c4Payload : UpdateIssueRequest :=
  ⟨none, none, none, none, none, none, none, some .COMPLETED, none, none, none⟩

/-- The resulting issue of the C4 witness update. -/
def c4Result : Issue :=
  ⟨"i4", "broken bench", "bench broken in the park", "Park Ave", none, none,
   .COMPLETED, .MEDIUM, false, "GLY-004", some 77, 10, "cat1", none, "u1", none⟩

/-- C4 witness: the concrete transition into COMPLETED at time 77 stamps
completedAt with 77. -/
theorem c4_completedAt_stamping_witness : c4Result.completedAt = some 77 := by
  have h := c4_completedAt_stamping "admin1" .ADMIN c4Issue c4Payload 77 c4Result rfl
  rw [h]
  decide

/-- C5: a USER who created the issue may update it, the update succeeds,
and the honored payload can never change status, priority, assignment,
category, subcategory or the emergency flag: those keys are dropped by
the allowed-fields filter whatever the payload holds. -/
theorem c5_user_update_field_mask
    (uid : String) (cur : Issue) (u : UpdateIssueRequest) (now : Nat)
    (hCreator : cur.createdById = uid) :
    ∃ r, updateIssue uid .USER cur u now = Except.ok r
      ∧ r.status = cur.status ∧ r.priority = cur.priority
      ∧ r.assignedToId = cur.assignedToId ∧ r.categoryId = cur.categoryId
      ∧ r.subcategoryId = cur.subcategoryId ∧ r.isEmergency = cur.isEmergency := by
  have hperm : updatePerms uid .USER cur = (true, userAllowedFields) := by
    simp [updatePerms, hCreator]
  refine ⟨_, updateIssue_ok uid .USER cur u now (by rw [hperm]), ?_, ?_, ?_, ?_, ?_, ?_⟩
  all_goals
    rw [hperm]
    simp [applyUpdate, filterUpdateData, keepField, userAllowedFields]

/-- The stored issue of the C5 witness. -/
def c5Issue : Issue :=
  ⟨"i5", "graffiti", "graffiti on the school wall", "2 School St", none, none,
   .PENDING, .MEDIUM, false, "GLY-005", none, 20, "cat1", none, "u1", none⟩

/-- The C5 witness payload: the creator attempts to set every staff-only
field. -/
def c5Payload : UpdateIssueRequest :=
  ⟨some "new title", none, none, none, none, some "cat2", some "sub2",
   some .COMPLETED, some .HIGH, some true, some "sup1"⟩

/-- C5 witness: the creator's update succeeds and leaves status,
priority, assignment, category, subcategory and the emergency flag
untouched. -/
theorem c5_user_update_field_mask_witness :
    ∃ r, updateIssue "u1" .USER c5Issue c5Payload 30 = Except.ok r
      ∧ r.status = c5Issue.status ∧ r.priority = c5Issue.priority
      ∧ r.assignedToId = c5Issue.assignedToId ∧ r.categoryId = c5Issue.categoryId
      ∧ r.subcategoryId = c5Issue.subcategoryId ∧ r.isEmergency = c5Issue.isEmergency :=
  c5_user_update_field_mask "u1" c5Issue c5Payload 30 rfl

/-- The C3 issue: assigned to a different supervisor and created by a
different user, hence outside the SUPERVISOR visibility set of the
claim. -/
def c3ForeignIssue : Issue :=
  ⟨"i3", "water leak", "a pipe is leaking", "9 Shore Rd", none, none,
   .PENDING, .MEDIUM, false, "GLY-003", none, 40, "cat1", none, "u9", some "sup2"⟩

/-- C3 counterexample: exportIssues applies no role-based visibility at
all, so a SUPERVISOR export with no filters contains an issue that is
assigned to another user and was created by another user. -/
theorem c3_supervisor_export_not_scoped :
    exportIssues "sup1" .SUPERVISOR {} [c3ForeignIssue] = Except.ok [c3ForeignIssue]
    ∧ supervisorVisible "sup1" c3ForeignIssue = false :=
  ⟨rfl, rfl⟩

/-- C3 (amended): for every staff requester the export row set is the
set of issues satisfying the AND of the caller-supplied filters alone:
the result does not depend on who the staff requester is or which staff
role they hold, and membership is exactly the filter match, with no
role-based visibility applied. -/
theorem c3_export_applies_filters_only
    (uid1 uid2 : String) (role1 role2 : Role) (f : ExportFilters) (db : List Issue)
    (h1 : role1 ≠ .USER) (h2 : role2 ≠ .USER) :
    exportIssues uid1 role1 f db = exportIssues uid2 role2 f db
    ∧ ∃ rows, exportIssues uid1 role1 f db = Except.ok rows
        ∧ ∀ i, i ∈ rows ↔ i ∈ db ∧ matchesExportWhere (buildExportWhere f) i = true := by
  unfold exportIssues
  rw [if_neg h1, if_neg h2]
  refine ⟨rfl, _, rfl, fun i => ?_⟩
  rw [mem_sortByCreatedDesc]
  simp [List.mem_filter]

/-- The caller filter set of the C3 witness: only emergencies. -/
def c3Filter : ExportFilters := { isEmergency := some "true" }

/-- C3 witness: at a concrete filter set and database, a SUPERVISOR and
an OFFICE requester produce the same export, and membership in it is the
filter match. -/
theorem c3_export_applies_filters_only_witness :
    exportIssues "sup1" .SUPERVISOR c3Filter [c3ForeignIssue]
      = exportIssues "off1" .OFFICE c3Filter [c3ForeignIssue]
    ∧ ∃ rows, exportIssues "sup1" .SUPERVISOR c3Filter [c3ForeignIssue] = Except.ok rows
        ∧ ∀ i, i ∈ rows ↔ i ∈ [c3ForeignIssue]
            ∧ matchesExportWhere (buildExportWhere c3Filter) i = true :=
  c3_export_applies_filters_only "sup1" "off1" .SUPERVISOR .OFFICE c3Filter
    [c3ForeignIssue] (by decide) (by decide)

/-- The category table of the C6 scenarios. -/
def c6Cats : List Category := [⟨"c1", "Lighting", true⟩]

/-- First data row of the C6 scenarios (worksheet row 2), valid. -/
def c6Row1 : ImportRow := ⟨"t1", "d1", "addr1", "Lighting"⟩

/-- Second data row of the C6 scenarios (worksheet row 3), blank
address. -/
def c6Row2 : ImportRow := ⟨"t2", "d2", "", "Lighting"⟩

/-- Third data row of the C6 scenarios (worksheet row 4), valid. -/
def c6Row3 : ImportRow := ⟨"t3", "d3", "addr3", "Lighting"⟩

/-- C6 counterexample: with three data rows whose second has a blank
address, the import report counts 2 successes and 1 failure but the
error message names worksheet row 3, not data row 2: the loop numbers
messages by the raw worksheet row, in which the header is row 1. -/
theorem c6_import_row_numbering_cex :
    excelImportIssues c6Cats [c6Row1, c6Row2, c6Row3]
      = ⟨2, 1, ["Row 3: Missing required fields"]⟩
    ∧ (⟨2, 1, ["Row 3: Missing required fields"]⟩ : ImportResult)
      ≠ ⟨2, 1, ["Row 2: Missing required fields"]⟩ := by
  constructor
  · rfl
  · decide

/-- C6 (amended): for every import of three data rows in which the
second has a blank address and the other two are valid with resolvable
active categories, the report is 2 successes, 1 failure, and the single
error message names the worksheet row of the blank row, counting the
header as row 1 — so the second data row reports as Row 3. -/
theorem c6_import_three_rows
    (cats : List Category) (r1 r2 r3 : ImportRow) (c1 c3 : Category)
    (h1t : r1.title ≠ "") (h1d : r1.description ≠ "") (h1a : r1.address ≠ "")
    (h1c : r1.categoryName ≠ "")
    (h1f : cats.find? (fun c => c.name == r1.categoryName && c.isActive) = some c1)
    (h2a : r2.address = "")
    (h3t : r3.title ≠ "") (h3d : r3.description ≠ "") (h3a : r3.address ≠ "")
    (h3c : r3.categoryName ≠ "")
    (h3f : cats.find? (fun c => c.name == r3.categoryName && c.isActive) = some c3) :
    excelImportIssues cats [r1, r2, r3]
      = ⟨2, 1, ["Row 3: Missing required fields"]⟩ := by
  have s1 : processRow cats ⟨0, 0, []⟩ 2 r1 = ⟨1, 0, []⟩ := by
    unfold processRow
    rw [if_neg (by simp [h1t, h1d, h1a, h1c]), h1f]
  have s2 : processRow cats ⟨1, 0, []⟩ 3 r2
      = ⟨1, 1, ["Row 3: Missing required fields"]⟩ := by
    unfold processRow
    rw [if_pos (by simp [h2a])]
    decide
  have s3 : processRow cats ⟨1, 1, ["Row 3: Missing required fields"]⟩ 4 r3
      = ⟨2, 1, ["Row 3: Missing required fields"]⟩ := by
    unfold processRow
    rw [if_neg (by simp [h3t, h3d, h3a, h3c]), h3f]
  unfold excelImportIssues
  simp only [processRowsFrom]
  rw [s1, s2, s3]

/-- C6 witness: the amended statement at the concrete three-row
worksheet. -/
theorem c6_import_three_rows_witness :
    excelImportIssues c6Cats [c6Row1, c6Row2, c6Row3]
      = ⟨2, 1, ["Row 3: Missing required fields"]⟩ :=
  c6_import_three_rows c6Cats c6Row1 c6Row2 c6Row3
    ⟨"c1", "Lighting", true⟩ ⟨"c1", "Lighting", true⟩
    (by decide) (by decide) (by decide) (by decide) rfl rfl
    (by decide) (by decide) (by decide) (by decide) rfl

/-- C7: when the existing photo count of the issue plus the batch size
exceeds the configured maximum, uploadPhotos answers 400, creates no
Photo record, and removes every already-written file of the batch from
the blob store. -/
theorem c7_photo_cap_rejects_batch
    (issueId uid : String) (role : Role) (db : List Issue) (issue : Issue)
    (files : List FileMeta) (maxPhotos : Nat) (st : PhotoState) (freshIds : List String)
    (hfind : db.find? (fun i => i.id == issueId) = some issue)
    (hperm : ¬ (role = .USER ∧ issue.createdById ≠ uid))
    (hne : files ≠ [])
    (hover : maxPhotos < photoCountFor issueId st + files.length) :
    (uploadPhotos issueId uid role db files maxPhotos st freshIds).1.status = 400
    ∧ (uploadPhotos issueId uid role db files maxPhotos st freshIds).2.photos = st.photos
    ∧ ∀ f ∈ files, f.path ∉ (uploadPhotos issueId uid role db files maxPhotos st freshIds).2.disk := by
  simp only [uploadPhotos, hfind]
  rw [if_neg hperm, if_neg hne, if_pos hover]
  refine ⟨rfl, rfl, ?_⟩
  intro f hf hmem
  rw [List.mem_filter] at hmem
  obtain ⟨-, hp⟩ := hmem
  simp only [decide_eq_true_eq] at hp
  exact hp (List.any_eq_true.mpr ⟨f, hf, by simp⟩)

/-- The issue of the C7 witness. -/
def c7Issue : Issue :=
  ⟨"i7", "fallen tree", "a tree fell on the sidewalk", "3 Oak St", none, none,
   .PENDING, .MEDIUM, false, "GLY-007", none, 15, "cat1", none, "u2", none⟩

/-- The single batch file of the C7 witness, already written at path p1. -/
def c7File : FileMeta := ⟨"f.jpg", "orig.jpg", "image/jpeg", 9, "p1"⟩

/-- The photo table and blob store of the C7 witness: no records yet and
the batch blob on disk. -/
def c7St : PhotoState := ⟨[], ["p1"]⟩

/-- C7 witness: with a configured maximum of 0 the one-file batch is
rejected with 400, creates no record, and its blob is unlinked. -/
theorem c7_photo_cap_rejects_batch_witness :
    (uploadPhotos "i7" "admin1" .ADMIN [c7Issue] [c7File] 0 c7St []).1.status = 400
    ∧ (uploadPhotos "i7" "admin1" .ADMIN [c7Issue] [c7File] 0 c7St []).2.photos = c7St.photos
    ∧ "p1" ∉ (uploadPhotos "i7" "admin1" .ADMIN [c7Issue] [c7File] 0 c7St []).2.disk := by
  have h := c7_photo_cap_rejects_batch "i7" "admin1" .ADMIN [c7Issue] c7Issue
    [c7File] 0 c7St [] rfl (by simp) (by simp) (by decide)
  exact ⟨h.1, h.2.1, h.2.2 c7File (by simp)⟩

/-- C8: with an active category found, deleteCategory answers 400 and
changes nothing when at least one issue references the category, and
with zero referencing issues it answers 200 and soft-deletes: the
category and every subcategory of it get isActive false while no record
is removed. -/
theorem c8_delete_category_conflict_or_soft
    (id1 : String) (st1 : CatState) (issues1 : List Issue) (c1 : Category)
    (hf1 : st1.categories.find? (fun c => c.id == id1 && c.isActive) = some c1)
    (href : 0 < (issues1.filter (fun i => i.categoryId == id1)).length)
    (id2 : String) (st2 : CatState) (issues2 : List Issue) (c2 : Category)
    (hf2 : st2.categories.find? (fun c => c.id == id2 && c.isActive) = some c2)
    (hzero : (issues2.filter (fun i => i.categoryId == id2)).length = 0) :
    ((deleteCategory id1 st1 issues1).1.status = 400
      ∧ (deleteCategory id1 st1 issues1).2 = st1)
    ∧ ((deleteCategory id2 st2 issues2).1.status = 200
      ∧ (∀ c ∈ (deleteCategory id2 st2 issues2).2.categories, c.id = id2 → c.isActive = false)
      ∧ (∀ s ∈ (deleteCategory id2 st2 issues2).2.subcategories,
            s.categoryId = id2 → s.isActive = false)
      ∧ (deleteCategory id2 st2 issues2).2.categories.length = st2.categories.length
      ∧ (deleteCategory id2 st2 issues2).2.subcategories.length = st2.subcategories.length) := by
  constructor
  · unfold deleteCategory
    rw [hf1, if_pos href]
    exact ⟨rfl, rfl⟩
  · unfold deleteCategory
    rw [hf2, if_neg (by simp [hzero])]
    refine ⟨rfl, ?_, ?_, by simp, by simp⟩
    · intro c hc hid
      rw [List.mem_map] at hc
      obtain ⟨a, -, ha⟩ := hc
      by_cases h : a.id = id2
      · rw [if_pos h] at ha; rw [← ha]
      · rw [if_neg h] at ha; rw [← ha] at hid; exact absurd hid h
    · intro s hs hid
      rw [List.mem_map] at hs
      obtain ⟨a, -, ha⟩ := hs
      by_cases h : a.categoryId = id2
      · rw [if_pos h] at ha; rw [← ha]
      · rw [if_neg h] at ha; rw [← ha] at hid; exact absurd hid h

/-- The reference-holding scenario of the C8 witness: category catA is
referenced by one issue. -/
def c8St1 : CatState := ⟨[⟨"catA", "Roads", true⟩], []⟩

/-- The referencing issue of the C8 witness. -/
def c8IssueA : Issue :=
  ⟨"i8", "crack", "crack across the road", "1 Hill St", none, none,
   .PENDING, .MEDIUM, false, "GLY-008", none, 25, "catA", none, "u3", none⟩

/-- The reference-free scenario of the C8 witness: category catB with
one subcategory and no referencing issue. -/
def c8St2 : CatState := ⟨[⟨"catB", "Parks", true⟩], [⟨"subB", "catB", true⟩]⟩

/-- C8 witness: at the two concrete scenarios, the referenced category
delete answers 400 leaving the state intact, and the unreferenced one
answers 200 keeping both records. -/
theorem c8_delete_category_conflict_or_soft_witness :
    (deleteCategory "catA" c8St1 [c8IssueA]).1.status = 400
    ∧ (deleteCategory "catA" c8St1 [c8IssueA]).2 = c8St1
    ∧ (deleteCategory "catB" c8St2 []).1.status = 200
    ∧ (deleteCategory "catB" c8St2 []).2.categories.length = c8St2.categories.length
    ∧ (deleteCategory "catB" c8St2 []).2.subcategories.length = c8St2.subcategories.length := by
  have h := c8_delete_category_conflict_or_soft "catA" c8St1 [c8IssueA]
    ⟨"catA", "Roads", true⟩ rfl (by decide) "catB" c8St2 []
    ⟨"catB", "Parks", true⟩ rfl (by decide)
  exact ⟨h.1.1, h.1.2, h.2.1, h.2.2.2.2.1, h.2.2.2.2.2⟩

end MyGlyfada
